import Mathlib

/-!
# Verification of the keyring core (`KeyRing`) of this wallet repository

Shallow embedding of `KeyRing` (source file `part_000`) and its record
store, together with proofs about the keystore operations: `unlock`,
`checkPassword`, `resetPassword`, `storeMnemonic`, `deriveAccount`,
`deriveTransparentAccount`, `deriveShieldedAccount`, `deleteAccount`,
`queryAccounts`, `queryBalances`, and the `getId` / uuid-v5 id scheme.

External collaborators (the `uuid` library, the wasm crypto package, the
abstract `Store`) are not part of the given sources; they are modelled
from the specification, each such definition is marked
`Modelled from the spec:`.
-/

namespace Keyring

/-! ## SHA-1 and uuid v5

Modelled from the spec: ids are `uuidv5(namespace, name)` with the fixed
namespace constant `9bfceade-37fe-11ed-acc0-a3da3461b38c` (§6).  uuid v5 is
the RFC 4122 name-based UUID: SHA-1 over (namespace bytes ++ UTF-8 name),
truncated to 16 bytes with version/variant bits forced, rendered in the
usual lowercase 8-4-4-4-12 hex form. -/

/-- Truncate to 32 bits. -/
def mask32 (x : Nat) : Nat := x % 4294967296

/-- Rotate a 32-bit word left by `n`. -/
def rotl (n x : Nat) : Nat := mask32 ((x <<< n) ||| (x >>> (32 - n)))

/-- Big-endian byte rendering of `n` into `k` bytes. -/
def natToBytesBE (n : Nat) : Nat → List Nat
  | 0 => []
  | k + 1 => natToBytesBE (n >>> 8) k ++ [n % 256]

/-- Group a byte list into big-endian 32-bit words (dropping a ragged tail;
padded SHA-1 input is always a multiple of 4 bytes). -/
def bytesToWordsBE : List Nat → List Nat
  | a :: b :: c :: d :: rest =>
      ((a <<< 24) ||| (b <<< 16) ||| (c <<< 8) ||| d) :: bytesToWordsBE rest
  | _ => []

/-- SHA-1 message padding: `0x80`, zeros to 56 mod 64, 8-byte bit length. -/
def sha1Pad (msg : List Nat) : List Nat :=
  let k := (120 - (msg.length + 1) % 64) % 64
  msg ++ [128] ++ List.replicate k 0 ++ natToBytesBE (8 * msg.length) 8

/-- SHA-1 round function. -/
def sha1F (i b c d : Nat) : Nat :=
  if i < 20 then (b &&& c) ||| ((b ^^^ 4294967295) &&& d)
  else if i < 40 then b ^^^ c ^^^ d
  else if i < 60 then (b &&& c) ||| (b &&& d) ||| (c &&& d)
  else b ^^^ c ^^^ d

/-- SHA-1 round constants. -/
def sha1K (i : Nat) : Nat :=
  if i < 20 then 1518500249
  else if i < 40 then 1859775393
  else if i < 60 then 2400959708
  else 3395469782

/-- One step of the SHA-1 message-schedule extension. -/
def sha1ExtendStep (ws : Array Nat) : Array Nat :=
  let i := ws.size
  ws.push (rotl 1 ((ws.getD (i - 3) 0) ^^^ (ws.getD (i - 8) 0) ^^^
    (ws.getD (i - 14) 0) ^^^ (ws.getD (i - 16) 0)))

/-- Extend the 16 block words to the 80 schedule words. -/
def sha1Extend (ws : Array Nat) : Array Nat :=
  (List.range 64).foldl (fun a _ => sha1ExtendStep a) ws

/-- SHA-1 compression of one 16-word block into the running state. -/
def sha1Compress (h : Nat × Nat × Nat × Nat × Nat) (block : List Nat) :
    Nat × Nat × Nat × Nat × Nat :=
  let ws := sha1Extend block.toArray
  let (h0, h1, h2, h3, h4) := h
  let st := (List.range 80).foldl
    (fun st i =>
      let (a, b, c, d, e) := st
      let temp := mask32 (rotl 5 a + sha1F i b c d + e + sha1K i + ws.getD i 0)
      (temp, a, rotl 30 b, c, d))
    (h0, h1, h2, h3, h4)
  let (a, b, c, d, e) := st
  (mask32 (h0 + a), mask32 (h1 + b), mask32 (h2 + c), mask32 (h3 + d),
    mask32 (h4 + e))

/-- Fold SHA-1 compression over the word stream, 16 words per block.  The
first argument is structural fuel (one unit per block suffices). -/
def sha1Blocks : Nat → (Nat × Nat × Nat × Nat × Nat) → List Nat →
    Nat × Nat × Nat × Nat × Nat
  | 0, h, _ => h
  | _, h, [] => h
  | fuel + 1, h, w :: rest =>
      sha1Blocks fuel (sha1Compress h (w :: rest.take 15)) (rest.drop 15)

/-- SHA-1 digest (20 bytes) of a byte list. -/
def sha1 (msg : List Nat) : List Nat :=
  let ws := bytesToWordsBE (sha1Pad msg)
  let (h0, h1, h2, h3, h4) :=
    sha1Blocks ws.length (1732584193, 4023233417, 2562383102, 271733878, 3285377520) ws
  natToBytesBE h0 4 ++ natToBytesBE h1 4 ++ natToBytesBE h2 4 ++
    natToBytesBE h3 4 ++ natToBytesBE h4 4

/-- UTF-8 encoding of one code point. -/
def utf8Encode (c : Nat) : List Nat :=
  if c < 128 then [c]
  else if c < 2048 then [192 + c / 64, 128 + c % 64]
  else if c < 65536 then [224 + c / 4096, 128 + (c / 64) % 64, 128 + c % 64]
  else [240 + c / 262144, 128 + (c / 4096) % 64, 128 + (c / 64) % 64,
    128 + c % 64]

/-- UTF-8 bytes of a string. -/
def strBytes (s : String) : List Nat :=
  (s.data.map (fun c => utf8Encode c.toNat)).flatten

/-- Lowercase hex digits. -/
def hexDigits : List String :=
  ["0", "1", "2", "3", "4", "5", "6", "7", "8", "9", "a", "b", "c", "d", "e", "f"]

/-- Two lowercase hex digits of a byte. -/
def byteToHex (b : Nat) : String :=
  hexDigits.getD (b / 16 % 16) "0" ++ hexDigits.getD (b % 16) "0"

/-- Lowercase hex of a byte list. -/
def bytesToHex (bs : List Nat) : String :=
  String.join (bs.map byteToHex)

/-- Render 16 bytes as an 8-4-4-4-12 lowercase UUID string, forcing the
version nibble to 5 and the variant bits to `10`. -/
def uuidFromBytes (bs : List Nat) : String :=
  let b := bs.take 16
  let b6 := b.getD 6 0 % 16 + 80
  let b8 := b.getD 8 0 % 64 + 128
  let v := b.take 6 ++ [b6, b.getD 7 0, b8] ++ b.drop 9
  bytesToHex (v.take 4) ++ "-" ++ bytesToHex ((v.drop 4).take 2) ++ "-" ++
    bytesToHex ((v.drop 6).take 2) ++ "-" ++ bytesToHex ((v.drop 8).take 2) ++
    "-" ++ bytesToHex (v.drop 10)

/-- Modelled from the spec: the external `uuid` library's v5 function
(`uuid(name, namespace)` in the source), RFC 4122 name-based SHA-1 UUID. -/
def uuidv5 (namespaceBytes : List Nat) (name : String) : String :=
  uuidFromBytes (sha1 (namespaceBytes ++ strBytes name))

/-- The source's `UUID_NAMESPACE` constant
`"9bfceade-37fe-11ed-acc0-a3da3461b38c"`, as its 16 bytes. -/
def NAMESPACE_BYTES : List Nat :=
  [155, 252, 234, 222, 55, 254, 17, 237, 172, 192, 163, 218, 52, 97, 179, 140]

/-- An argument to `getId`: the source accepts `(number | string)[]`. -/
inductive IdArg
  | str (s : String)
  | num (n : Nat)
deriving DecidableEq

/-- JS template rendering of an argument. -/
def IdArg.render : IdArg → String
  | .str s => s
  | .num n => toString n

/-- The source's `getId`: fold the arguments onto the name separated by
`"::"`, then take uuid v5 of the result under `UUID_NAMESPACE`. -/
def getId (name : String) (args : List IdArg) : String :=
  uuidv5 NAMESPACE_BYTES
    (args.foldl (fun uuidName arg => uuidName ++ "::" ++ arg.render) name)

/-! ## Data model

The `KeyStore` record type and the error enums come from the keyring's
`./types` module, which is not among the given sources; their fields and
variants are modelled from the spec (§3, §7).  The encrypted blob is the
spec's CryptoBox contract (§4.4): decryption succeeds exactly under the
password the blob was encrypted with, and then returns the original
plaintext; under any other password it fails with `BadPassword`. -/

/-- Account type tag (`AccountType` in `@anoma/types`). -/
inductive AccountType
  | Mnemonic
  | PrivateKey
  | ShieldedKeys
deriving DecidableEq

/-- A BIP44 derivation path tuple; `index` may be absent. -/
structure Bip44Path where
  account : Nat
  change : Nat
  index : Option Nat := none
deriving DecidableEq

/-- Keyring lock status (`KeyRingStatus`). -/
inductive KeyRingStatus
  | Empty
  | Locked
  | Unlocked
deriving DecidableEq

/-- Modelled from the spec: the CryptoBox encrypted blob (§4.4), recording
the password the secret was wrapped under and the wrapped plaintext. -/
structure CryptoBlob where
  password : String
  text : String
deriving DecidableEq

/-- Modelled from the spec: decryption failure of the CryptoBox (§4.4). -/
inductive CryptoError
  | BadPassword
deriving DecidableEq

/-- The persisted account record (`KeyStore` in `./types`), fields per
spec §3: clear metadata plus the encrypted `crypto` blob. -/
structure KeyStoreRecord where
  id : String
  «alias» : String
  address : String
  owner : String
  chainId : String
  path : Bip44Path
  parentId : Option String := none
  type : AccountType
  crypto : CryptoBlob
deriving DecidableEq

/-- Modelled from the spec: `crypto.encrypt` wraps `(password, text)` into
the record's blob (§4.4). -/
def encryptBlob (password text : String) : CryptoBlob :=
  { password := password, text := text }

/-- Modelled from the spec: `crypto.decrypt` on a record; AEAD
authentication succeeds exactly under the encryption password (§4.4). -/
def decryptRecord (r : KeyStoreRecord) (password : String) :
    Except CryptoError String :=
  if r.crypto.password = password then .ok r.crypto.text
  else .error .BadPassword

/-! ## The record store

`Store` comes from `@anoma/storage`, not among the given sources.
Modelled from the spec: the `key-store` value is an ordered list of
account records (§6) with indexed lookup by `id`, `parentId` and
`address` (§4.5). -/

/-- Store lookup `getRecord("id", v)`: first record whose id equals `v` (none when the
looked-up id is itself absent). -/
def getRecordById (records : List KeyStoreRecord) (id : Option String) :
    Option KeyStoreRecord :=
  id.bind (fun i => records.find? (fun r => r.id = i))

/-- Store lookup `getRecords("parentId", v)`: all records whose `parentId` equals `v`. -/
def getRecordsByParentId (records : List KeyStoreRecord)
    (parentId : Option String) : List KeyStoreRecord :=
  records.filter (fun r => r.parentId = parentId)

/-- Store lookup `getRecord("address", v)`: first record with that address. -/
def getRecordByAddress (records : List KeyStoreRecord) (address : String) :
    Option KeyStoreRecord :=
  records.find? (fun r => r.address = address)

/-- Store op `update(id, v)`: replace the record(s) carrying `id` by `v`. -/
def updateRecord (records : List KeyStoreRecord) (id : String)
    (v : KeyStoreRecord) : List KeyStoreRecord :=
  records.map (fun r => if r.id = id then v else r)

/-- Store op `remove(id)`: drop the record(s) carrying `id`. -/
def removeRecord (records : List KeyStoreRecord) (id : String) :
    List KeyStoreRecord :=
  records.filter (fun r => r.id ≠ id)

/-! ## KeyRing state and operations (source file `part_000`) -/

/-- The mutable state of a `KeyRing`: the persisted record list, the
cached in-memory `_password`, `_status`, the persisted active parent id,
and the `chainId` the ring was constructed with.  (The sdk side-store and
the external transaction builder are out of scope of the claims.) -/
structure KeyRingState where
  records : List KeyStoreRecord
  password : Option String := none
  status : KeyRingStatus := .Empty
  activeAccountId : Option String := none
  chainId : String
deriving DecidableEq

/-- Source `KeyRing.checkPassword(password, accountId?)`: defaults to the active
account, then checks that decryption of that record succeeds; a missing
record or a decryption error yields `false`. -/
def checkPassword (s : KeyRingState) (password : String)
    (accountId : Option String := none) : Bool :=
  let idToCheck := accountId.orElse (fun _ => s.activeAccountId)
  match getRecordById s.records idToCheck with
  | some mnemonic =>
      match decryptRecord mnemonic password with
      | .ok _ => true
      | .error _ => false
  | none => false

/-- Source `KeyRing.unlock(password)`: sets the cached password and the status
only when `checkPassword` succeeds; otherwise does nothing at all. -/
def unlock (s : KeyRingState) (password : String) : KeyRingState :=
  if checkPassword s password then
    { s with password := some password, status := .Unlocked }
  else s

/-- Source `KeyRing.lock()`. -/
def lock (s : KeyRingState) : KeyRingState :=
  { s with status := .Locked, password := none }

/-- Error enum `ResetPasswordError` (from `./types`; variants as used by the source
and listed in spec §7). -/
inductive ResetPasswordError
  | BadPassword
  | KeyStoreError
deriving DecidableEq

/-- The per-record loop of `resetPassword`: decrypt each account of the
batch under the current password, re-encrypt under the new one, and write
the update into the store immediately.  On a decryption failure the loop
stops and reports failure, keeping every update already written — the
source has no rollback. -/
def resetLoop (records : List KeyStoreRecord)
    (accounts : List KeyStoreRecord) (currentPassword newPassword : String) :
    List KeyStoreRecord × Bool :=
  match accounts with
  | [] => (records, true)
  | account :: rest =>
      match decryptRecord account currentPassword with
      | .error _ => (records, false)
      | .ok decryptedSecret =>
          let reencrypted :=
            { account with crypto := encryptBlob newPassword decryptedSecret }
          resetLoop (updateRecord records account.id reencrypted) rest
            currentPassword newPassword

/-- Source `KeyRing.resetPassword(currentPassword, newPassword, accountId)`. -/
def resetPassword (s : KeyRingState)
    (currentPassword newPassword accountId : String) :
    Except ResetPasswordError Unit × KeyRingState :=
  if checkPassword s currentPassword (some accountId) then
    match getRecordById s.records (some accountId) with
    | none => (.error .KeyStoreError, s)
    | some topLevelAccount =>
        let derivedAccounts := getRecordsByParentId s.records (some accountId)
        let allAccounts := topLevelAccount :: derivedAccounts
        match resetLoop s.records allAccounts currentPassword newPassword with
        | (records, false) =>
            (.error .KeyStoreError, { s with records := records })
        | (records, true) =>
            let password :=
              if some accountId = s.activeAccountId then some newPassword
              else s.password
            (.ok (), { s with records := records, password := password })
  else (.error .BadPassword, s)

/-- Modelled from the spec: failure of `Mnemonic.from_phrase` (§4.1). -/
inductive MnemonicError
  | InvalidMnemonic
deriving DecidableEq

/-- Modelled from the spec: serialized outputs of the external ZIP32
shielded derivation (§4.3): raw xsk bytes, its bech32m encoding, the
encoded viewing key and the encoded payment address. -/
structure ShieldedKeys where
  xsk : String
  spendingKey : String
  viewingKey : String
  paymentAddress : String
deriving DecidableEq

/-- Modelled from the spec: the external wasm crypto package and chain
registry, as opaque deterministic functions.
`fromPhrase` is `Mnemonic.from_phrase` followed by `to_seed` (BIP39
validation, §4.1); `deriveSk` is `new HDWallet(seed).derive(path)`'s
private key in hex (§4.2); `implicitAddress` is `new Address(sk).implicit()`;
`shieldedDerive` is `new ShieldedHDWallet(seed).derive_to_serialized_keys(index)`
with the key/address encodings (§4.3); `coinType` is
`chains[chainId].bip44.coinType` (§6). -/
structure CryptoEnv where
  fromPhrase : String → Except MnemonicError String
  deriveSk : String → String → String
  implicitAddress : String → String
  shieldedDerive : String → Nat → ShieldedKeys
  coinType : String → Nat

/-- Source `KeyRing.storeMnemonic(mnemonic, password, alias)`: throws when the
password is empty; otherwise validates the phrase, derives the root
account, computes `id = getId(phrase, rank)` with `rank` the current
record count, appends the encrypted parent record, marks it active and
caches the password.  Any failure inside the `try` block (in particular
an invalid phrase) is caught and surfaced as a `false` return with the
store untouched. -/
def storeMnemonic (env : CryptoEnv) (s : KeyRingState)
    (mnemonic : List String) (password «alias» : String) :
    Except String (Bool × KeyRingState) :=
  if password = "" then
    .error "Password is not provided! Cannot store mnemonic"
  else
    let phrase := String.intercalate " " mnemonic
    match env.fromPhrase phrase with
    | .error _ => .ok (false, s)
    | .ok seed =>
        let coinType := env.coinType s.chainId
        let path := "m/44\x27/" ++ toString coinType ++ "\x27/0\x27/0"
        let sk := env.deriveSk seed path
        let address := env.implicitAddress sk
        let id := getId phrase [.num s.records.length]
        let mnemonicStore : KeyStoreRecord :=
          { id := id, «alias» := «alias», address := address, owner := address,
            chainId := s.chainId, path := { account := 0, change := 0 },
            parentId := none, type := .Mnemonic,
            crypto := encryptBlob password phrase }
        .ok (true, { s with
          records := s.records ++ [mnemonicStore],
          activeAccountId := some id,
          password := some password })

/-- Result of `KeyRing.deriveTransparentAccount`. -/
structure DerivedAccountInfo where
  address : String
  id : String
  text : String
deriving DecidableEq

/-- The BIP44 derivation-path string built by `deriveTransparentAccount`:
`[root, coinType', account, change, index].join("/")` with
`root = "m/44'"` and `index` defaulting to `0` when absent. -/
def transparentDerivationPath (coinType : Nat) (path : Bip44Path) : String :=
  let account := path.account
  let change := path.change
  let index := path.index.getD 0
  String.intercalate "/"
    ["m/44\x27", toString coinType ++ "\x27", toString account,
      toString change, toString index]

/-- Source `KeyRing.deriveTransparentAccount(seed, path, parentId, chainId, ...)`. -/
def deriveTransparentAccount (env : CryptoEnv) (seed : String)
    (path : Bip44Path) (parentId chainId : String) : DerivedAccountInfo :=
  let account := path.account
  let change := path.change
  let index := path.index.getD 0
  let derivationPath := transparentDerivationPath (env.coinType chainId) path
  let text := env.deriveSk seed derivationPath
  let address := env.implicitAddress text
  let id := getId "account" [.str parentId, .num account, .num change, .num index]
  { address := address, id := id, text := text }

/-- Result of `KeyRing.deriveShieldedAccount`. -/
structure DerivedShieldedAccountInfo where
  address : String
  id : String
  spendingKey : String
  viewingKey : String
  text : String
deriving DecidableEq

/-- Source `KeyRing.deriveShieldedAccount(seed, path, parentId)`: note the id is
`getId("shielded-account", parentId, index)` — only the (defaulted)
index of the path enters the name. -/
def deriveShieldedAccount (env : CryptoEnv) (seed : String)
    (path : Bip44Path) (parentId : String) : DerivedShieldedAccountInfo :=
  let index := path.index.getD 0
  let id := getId "shielded-account" [.str parentId, .num index]
  let keys := env.shieldedDerive seed index
  { address := keys.paymentAddress, id := id, spendingKey := keys.xsk,
    viewingKey := keys.viewingKey,
    text := "\x7b\"spendingKey\":\"" ++ keys.spendingKey ++
      "\",\"viewingKey\":\"" ++ keys.viewingKey ++ "\"\x7d" }

/-- The clear view of a record returned by the query operations and by
`deriveAccount` (`DerivedAccount` in `@anoma/types`). -/
structure DerivedAccount where
  id : String
  address : String
  «alias» : String
  chainId : String
  parentId : Option String
  path : Bip44Path
  type : AccountType
deriving DecidableEq

/-- Strip a stored record down to its non-encrypted fields. -/
def toDerivedAccount (r : KeyStoreRecord) : DerivedAccount :=
  { id := r.id, address := r.address, «alias» := r.«alias»,
    chainId := r.chainId, parentId := r.parentId, path := r.path,
    type := r.type }

/-- Source `KeyRing.deriveAccount(path, type, alias)`: requires a truthy
cached password — the `if (!this._password)` guard throws both when no
password is cached and when the cached password is the empty string —
and a stored active mnemonic; decrypts the phrase, derives a shielded or
transparent child, appends the encrypted child record and returns its
clear view.  There is no duplicate-id check before the append. -/
def deriveAccount (env : CryptoEnv) (s : KeyRingState) (path : Bip44Path)
    (type : AccountType) («alias» : String) :
    Except String (DerivedAccount × KeyRingState) :=
  match s.password with
  | none => .error "No password is set!"
  | some password =>
      if password = "" then .error "No password is set!"
      else
      match getRecordById s.records s.activeAccountId with
      | none => .error "Mnemonic is not set!"
      | some storedMnemonic =>
          let parentId := storedMnemonic.id
          match decryptRecord storedMnemonic password with
          | .error _ => .error "Could not decrypt mnemonic from password!"
          | .ok phrase =>
              match env.fromPhrase phrase with
              | .error _ => .error "Could not decrypt mnemonic from password!"
              | .ok seed =>
                  let info :=
                    if type = AccountType.ShieldedKeys then
                      let sh := deriveShieldedAccount env seed path parentId
                      (sh.id, sh.address, sh.text, sh.viewingKey)
                    else
                      let tr := deriveTransparentAccount env seed path
                        parentId s.chainId
                      (tr.id, tr.address, tr.text, tr.address)
                  let record : KeyStoreRecord :=
                    { id := info.1, «alias» := «alias», address := info.2.1,
                      owner := info.2.2.2, chainId := s.chainId, path := path,
                      parentId := some parentId, type := type,
                      crypto := encryptBlob password info.2.2.1 }
                  .ok (toDerivedAccount record,
                    { s with records := s.records ++ [record] })

/-- Source `KeyRing.queryAccounts()`: the active parent plus its children,
stripped of `crypto`; empty when the active parent record is absent. -/
def queryAccounts (s : KeyRingState) : List DerivedAccount :=
  let parentAccount := getRecordById s.records s.activeAccountId
  let derivedAccounts := getRecordsByParentId s.records s.activeAccountId
  match parentAccount with
  | some parent => (parent :: derivedAccounts).map toDerivedAccount
  | none => []

/-- Modelled from the spec: the external chain query collaborator,
`query_balance(owner) → [(token, amountString)]` (§6). -/
structure QueryEnv where
  queryBalance : String → List (String × String)

/-- JS `Number.parseInt` on the amount strings returned by the chain
query, modelled for the decimal number strings that collaborator
produces. -/
def parseIntJs (s : String) : Int :=
  (s.toInt?).getD 0

/-- Source `KeyRing.queryBalances(address)`: throws `"Account not found."` when
no record carries the address; otherwise maps the chain query's balances
of the record's owner, parsing amounts as integers. -/
def queryBalances (env : QueryEnv) (s : KeyRingState) (address : String) :
    Except String (List (String × Int)) :=
  match getRecordByAddress s.records address with
  | none => .error "Account not found."
  | some account =>
      .ok ((env.queryBalance account.owner).map
        (fun p => (p.1, parseIntJs p.2)))

/-- Error enum `DeleteAccountError` (from `./types`; the variant the source uses). -/
inductive DeleteAccountError
  | BadPassword
deriving DecidableEq

/-- The removal loop of `deleteAccount`:
`for (const id of accountIds) { id && (await this._keyStore.remove(id)); }` —
an empty (falsy) id is skipped. -/
def removeAccountIds : List KeyStoreRecord → List String → List KeyStoreRecord
  | records, [] => records
  | records, i :: rest =>
      removeAccountIds (if i = "" then records else removeRecord records i) rest

/-- Source `KeyRing.deleteAccount(accountId, password)`: verifies the password
against the account's record, removes the account id and the ids of all
records with `parentId = accountId`, and forgets the cached password when
the deleted account was the active one. -/
def deleteAccount (s : KeyRingState) (accountId password : String) :
    Except DeleteAccountError Unit × KeyRingState :=
  if checkPassword s password (some accountId) then
    let derivedAccounts := getRecordsByParentId s.records (some accountId)
    let accountIds := accountId :: derivedAccounts.map (fun r => r.id)
    let records := removeAccountIds s.records accountIds
    let password := if some accountId = s.activeAccountId then none
      else s.password
    (.ok (), { s with records := records, password := password })
  else (.error .BadPassword, s)

end Keyring

deriving instance DecidableEq for Except

namespace Keyring

/-! ## Concrete fixtures

Small concrete keystore states and collaborator instances used to
instantiate the theorems below. -/

/-- A parent mnemonic record whose blob is encrypted under `"hunter2"`. -/
def exParent : KeyStoreRecord :=
  { id := "p", «alias» := "root", address := "addr1", owner := "addr1",
    chainId := "chain", path := { account := 0, change := 0 },
    parentId := none, type := .Mnemonic,
    crypto := { password := "hunter2", text := "phrase" } }

/-- A derived child of `exParent` whose blob is encrypted under a
different password than the parent's. -/
def exChildOther : KeyStoreRecord :=
  { id := "c", «alias» := "child", address := "addr2", owner := "addr2",
    chainId := "chain", path := { account := 0, change := 0, index := some 0 },
    parentId := some "p", type := .PrivateKey,
    crypto := { password := "other", text := "sk1" } }

/-- A derived child of `exParent` carrying the empty string as id. -/
def exChildEmptyId : KeyStoreRecord :=
  { id := "", «alias» := "empty", address := "addr3", owner := "addr3",
    chainId := "chain", path := { account := 0, change := 0, index := some 1 },
    parentId := some "p", type := .PrivateKey,
    crypto := { password := "hunter2", text := "sk2" } }

/-- An unlocked state holding only the parent record. -/
def exState : KeyRingState :=
  { records := [exParent], password := some "hunter2", status := .Unlocked,
    activeAccountId := some "p", chainId := "chain" }

/-- An unlocked state holding the parent and the differently-encrypted
child. -/
def exStateMixed : KeyRingState :=
  { records := [exParent, exChildOther], password := some "hunter2",
    status := .Unlocked, activeAccountId := some "p", chainId := "chain" }

/-- An unlocked state holding the parent and the empty-id child. -/
def exStateEmptyChild : KeyRingState :=
  { records := [exParent, exChildEmptyId], password := some "hunter2",
    status := .Unlocked, activeAccountId := some "p", chainId := "chain" }

/-- A fresh, empty keyring state. -/
def exEmptyState : KeyRingState :=
  { records := [], chainId := "chain" }

/-- A concrete crypto collaborator: accepts exactly the phrase
`"phrase"`, and derives deterministic placeholder keys and addresses. -/
def exEnv : CryptoEnv :=
  { fromPhrase := fun phrase =>
      if phrase = "phrase" then .ok "seed0" else .error .InvalidMnemonic,
    deriveSk := fun seed path => seed ++ ":" ++ path,
    implicitAddress := fun sk => "imp:" ++ sk,
    shieldedDerive := fun seed index =>
      { xsk := "xsk:" ++ seed ++ ":" ++ toString index,
        spendingKey := "sks:" ++ seed ++ ":" ++ toString index,
        viewingKey := "vk:" ++ seed ++ ":" ++ toString index,
        paymentAddress := "pa:" ++ seed ++ ":" ++ toString index },
    coinType := fun _ => 877 }

/-- A concrete chain query collaborator. -/
def exQueryEnv : QueryEnv :=
  { queryBalance := fun _ => [("NAM", "100")] }

/-- The uuid v5 of `"account::p::0::0::0"` under the fixed namespace: the
id `deriveTransparentAccount` computes for parent `"p"` and path
`(0, 0, 0)`. -/
def dupId : String := "366bef5e-59b0-5ed5-aadc-5638d552a591"

/-- An already-present record carrying exactly the id `dupId` that a new
transparent derivation at `(0, 0, 0)` under parent `"p"` would get. -/
def exDup : KeyStoreRecord :=
  { id := dupId, «alias» := "dup", address := "addrD", owner := "addrD",
    chainId := "chain", path := { account := 0, change := 0, index := some 0 },
    parentId := some "p", type := .PrivateKey,
    crypto := { password := "hunter2", text := "sk3" } }

/-- An unlocked state already holding a record with the id the next
transparent derivation will compute. -/
def exStateDup : KeyRingState :=
  { records := [exParent, exDup], password := some "hunter2",
    status := .Unlocked, activeAccountId := some "p", chainId := "chain" }

/-! ## Claim C10 -/

/-- Claim C10: when the password check fails, `unlock` completes without
raising any error and leaves the keyring state entirely unchanged — the
status does not become `Unlocked` and no password is cached; the caller
gets no failure signal. -/
theorem C10_unlock_bad_password_is_silent_no_op (s : KeyRingState)
    (p : String) (h : checkPassword s p none = false) :
    unlock s p = s := by
  unfold unlock
  simp [h]

/-- Witness for C10 at a concrete unlocked state and a wrong password. -/
theorem C10_witness :
    checkPassword exState "wrong" none = false ∧
    unlock exState "wrong" = exState :=
  ⟨by decide, C10_unlock_bad_password_is_silent_no_op exState "wrong" (by decide)⟩

/-! ## Claim C6 -/

/-- Claim C6: when the supplied current password fails the password check
against the account's record, `resetPassword` returns `Err(BadPassword)`
and the state is returned unchanged: every record's blob (hence its
decryptability under the original password) and the cached in-memory
password are exactly as before the call. -/
theorem C6_resetPassword_bad_password_non_destructive (s : KeyRingState)
    (currentPassword newPassword accountId : String)
    (h : checkPassword s currentPassword (some accountId) = false) :
    resetPassword s currentPassword newPassword accountId =
      (.error .BadPassword, s) := by
  unfold resetPassword
  simp [h]

/-- Witness for C6: a wrong current password at a concrete state. -/
theorem C6_witness :
    checkPassword exState "wrong" (some "p") = false ∧
    resetPassword exState "wrong" "npw" "p" = (.error .BadPassword, exState) :=
  ⟨by decide,
    C6_resetPassword_bad_password_non_destructive exState "wrong" "npw" "p"
      (by decide)⟩

/-! ## Claim C1 -/

/-- Claim C1 fails on the code: with a parent whose blob decrypts under
the current password but a child blob that does not, `resetPassword`
returns `KeyStoreError` yet leaves the parent's blob re-encrypted under
the NEW password — the per-record update already written is not rolled
back, so the batch is not all-or-nothing. -/
theorem C1_resetPassword_leaves_partial_updates :
    (resetPassword exStateMixed "hunter2" "new1" "p").1 =
      .error .KeyStoreError ∧
    (resetPassword exStateMixed "hunter2" "new1" "p").2.records =
      [{ exParent with crypto := { password := "new1", text := "phrase" } },
        exChildOther] ∧
    ({ exParent with crypto := { password := "new1", text := "phrase" } }
      : KeyStoreRecord) ≠ exParent := by
  decide

/-! ## Claim C5 -/

/-- Claim C5 counterexample: with no record carrying the queried address,
`queryBalances` does not return the empty list — it fails with the
`"Account not found."` error. -/
theorem C5_queryBalances_absent_address_throws :
    queryBalances exQueryEnv exState "nope" = .error "Account not found." ∧
    queryBalances exQueryEnv exState "nope" ≠ .ok [] := by
  decide

/-- Claim C5 amended: `queryAccounts` does return the empty list when the
active parent record is absent, but `queryBalances` on an absent address
fails with the `"Account not found."` error instead of returning empty. -/
theorem C5_amended_queries_on_absent_target (s : KeyRingState)
    (env : QueryEnv) (addr : String)
    (h1 : getRecordById s.records s.activeAccountId = none)
    (h2 : getRecordByAddress s.records addr = none) :
    queryAccounts s = [] ∧
    queryBalances env s addr = .error "Account not found." := by
  unfold queryAccounts queryBalances
  simp [h1, h2]

/-- Witness for the amended C5 on the empty state. -/
theorem C5_amended_witness :
    (getRecordById exEmptyState.records exEmptyState.activeAccountId = none ∧
      getRecordByAddress exEmptyState.records "nope" = none) ∧
    queryAccounts exEmptyState = [] ∧
    queryBalances exQueryEnv exEmptyState "nope" =
      .error "Account not found." :=
  ⟨⟨by decide, by decide⟩,
    C5_amended_queries_on_absent_target exEmptyState exQueryEnv "nope"
      (by decide) (by decide)⟩

/-! ## Claim C4 -/

/-- Claim C4 counterexample: with `path.index` absent the derivation-path
string still carries a final index segment (rendered as `0`); it is not
the four-segment string the claim describes. -/
theorem C4_index_segment_not_omitted :
    transparentDerivationPath 877 { account := 0, change := 0, index := none } =
      "m/44\x27/877\x27/0/0/0" ∧
    transparentDerivationPath 877 { account := 0, change := 0, index := none } ≠
      "m/44\x27/877\x27/0/0" := by
  decide

/-- Claim C4 amended: the index segment is always present — an absent
`path.index` is rendered as index `0`, so the string always has five
segments and the index-absent case coincides with `index = 0`. -/
theorem C4_amended_index_defaults_to_zero (ct a c : Nat) (i : Option Nat) :
    transparentDerivationPath ct { account := a, change := c, index := i } =
      "m/44\x27" ++ "/" ++ (toString ct ++ "\x27") ++ "/" ++ toString a ++
        "/" ++ toString c ++ "/" ++ toString (i.getD 0) ∧
    transparentDerivationPath ct { account := a, change := c, index := none } =
      transparentDerivationPath ct { account := a, change := c, index := some 0 } := by
  exact ⟨rfl, rfl⟩

/-! ## Claim C3 -/

set_option maxRecDepth 100000

/-- Claim C3 counterexample: for parent `"p"` and path `(0, 0, 0)` the
shielded id is uuid v5 of the name `"shielded-account::p::0"`, not of the
name `"shielded-account::p::0::0::0"` that would include the account and
change components as the claim states. -/
theorem C3_shielded_id_ignores_account_and_change :
    (deriveShieldedAccount exEnv "seed0"
        { account := 0, change := 0, index := some 0 } "p").id =
      uuidv5 NAMESPACE_BYTES "shielded-account::p::0" ∧
    (deriveShieldedAccount exEnv "seed0"
        { account := 0, change := 0, index := some 0 } "p").id ≠
      uuidv5 NAMESPACE_BYTES "shielded-account::p::0::0::0" := by
  constructor
  · decide
  · decide

/-- Claim C3 amended: for every parentId and path, the derived shielded
account's id is uuid v5, under the fixed namespace, of the `"::"`-joined
name built from `"shielded-account"`, the parentId and the (defaulted)
index only — the account and change components of the path do not enter
the name. -/
theorem C3_amended_shielded_id_name (env : CryptoEnv) (seed : String)
    (path : Bip44Path) (parentId : String) :
    (deriveShieldedAccount env seed path parentId).id =
      uuidv5 NAMESPACE_BYTES
        ("shielded-account" ++ "::" ++ parentId ++ "::" ++
          toString (path.index.getD 0)) := rfl

/-! ## Claim C7 -/

/-- Claim C7: on a valid phrase and non-empty password, `storeMnemonic`
appends exactly one parent record whose id is uuid v5 of
`phrase ++ "::" ++ rank`, where `rank` is the number of records currently
in the keystore — an explicit function of `(phrase, rank)` alone, hence
byte-identical whenever the computation is repeated on the same inputs. -/
theorem C7_storeMnemonic_id_of_phrase_and_rank (env : CryptoEnv)
    (s : KeyRingState) (mnemonic : List String)
    (password «alias» seed : String)
    (hpw : ¬ (password = ""))
    (hv : env.fromPhrase (String.intercalate " " mnemonic) = .ok seed) :
    ∃ parent : KeyStoreRecord,
      storeMnemonic env s mnemonic password «alias» =
        .ok (true, { s with
          records := s.records ++ [parent],
          activeAccountId := some parent.id, password := some password }) ∧
      parent.id = uuidv5 NAMESPACE_BYTES
        (String.intercalate " " mnemonic ++ "::" ++
          toString s.records.length) := by
  unfold storeMnemonic
  rw [if_neg hpw]
  simp only [hv]
  exact ⟨_, rfl, rfl⟩

/-- Witness for C7 on the empty state with the accepted phrase. -/
theorem C7_witness :
    ∃ parent : KeyStoreRecord,
      storeMnemonic exEnv exEmptyState ["phrase"] "pw" "a" =
        .ok (true, { exEmptyState with
          records := exEmptyState.records ++ [parent],
          activeAccountId := some parent.id, password := some "pw" }) ∧
      parent.id = uuidv5 NAMESPACE_BYTES
        (String.intercalate " " ["phrase"] ++ "::" ++
          toString exEmptyState.records.length) :=
  C7_storeMnemonic_id_of_phrase_and_rank exEnv exEmptyState ["phrase"] "pw"
    "a" "seed0" (by decide) (by decide)

/-! ## Claim C9 -/

/-- Claim C9 counterexample: on an invalid phrase `storeMnemonic` does not
fail with `InvalidMnemonic` — the internal validation error is caught and
the call completes normally, returning `false` with the state untouched
(so the append half of the claim holds, the error surfacing half does
not). -/
theorem C9_invalid_phrase_returns_false_not_error :
    storeMnemonic exEnv exEmptyState ["not", "a", "phrase"] "pw" "a" =
      .ok (false, exEmptyState) := by
  decide

/-- Claim C9 amended: for any word list the BIP39 validator rejects (word
not in list, checksum mismatch, or wrong phrase size), `storeMnemonic`
appends no record and — instead of surfacing `InvalidMnemonic` — catches
the failure and returns plain `false` with the state unchanged. -/
theorem C9_amended_invalid_phrase_swallowed (env : CryptoEnv)
    (s : KeyRingState) (mnemonic : List String) (password «alias» : String)
    (e : MnemonicError)
    (hpw : ¬ (password = ""))
    (hv : env.fromPhrase (String.intercalate " " mnemonic) = .error e) :
    storeMnemonic env s mnemonic password «alias» = .ok (false, s) := by
  unfold storeMnemonic
  rw [if_neg hpw]
  simp only [hv]

/-- Witness for the amended C9 at a concrete rejected phrase. -/
theorem C9_amended_witness :
    storeMnemonic exEnv exState ["bad"] "pw" "b" = .ok (false, exState) :=
  C9_amended_invalid_phrase_swallowed exEnv exState ["bad"] "pw" "b"
    .InvalidMnemonic (by decide) (by decide)

/-! ## Claim C2 -/

/-- Claim C2 counterexample: with a record carrying the would-be child id
already present (`exDup`, whose id is exactly the uuid the derivation
computes), `deriveAccount` does not fail with `Duplicate` — it succeeds
and appends a second record under the very same id. -/
theorem C2_deriveAccount_has_no_duplicate_check :
    getId "account" [.str "p", .num 0, .num 0, .num 0] = dupId ∧
    (exStateDup.records.filter (fun q => q.id = dupId)).length = 1 ∧
    (deriveAccount exEnv exStateDup
        { account := 0, change := 0, index := some 0 }
        .PrivateKey "x").toOption.map
      (fun res => (res.1.id,
        (res.2.records.filter (fun q => q.id = dupId)).length)) =
      some (dupId, 2) := by
  refine ⟨by decide, by decide, by decide⟩

/-- Claim C2 amended: `deriveAccount` performs no duplicate-id check:
whenever the ring holds a truthy (non-empty) cached password, the active
mnemonic record exists and decrypts, and its phrase is accepted, the
call succeeds and appends one new record — whether or not a record with
the computed id is already in the store. -/
theorem C2_amended_derive_appends_unconditionally (env : CryptoEnv)
    (s : KeyRingState) (path : Bip44Path) (type : AccountType)
    («alias» pw seed : String) (r : KeyStoreRecord)
    (hpw : s.password = some pw)
    (hne : ¬ (pw = ""))
    (hrec : getRecordById s.records s.activeAccountId = some r)
    (hdec : r.crypto.password = pw)
    (hseed : env.fromPhrase r.crypto.text = .ok seed) :
    ∃ newRec : KeyStoreRecord,
      deriveAccount env s path type «alias» =
        .ok (toDerivedAccount newRec,
          { s with records := s.records ++ [newRec] }) := by
  simp only [deriveAccount, hpw, hne, if_false, ite_false, hrec,
    decryptRecord, hdec, if_true, eq_self_iff_true, hseed]
  exact ⟨_, rfl⟩

/-- Witness for the amended C2: a fresh transparent derivation at a state
without the id present. -/
theorem C2_amended_witness :
    ∃ newRec : KeyStoreRecord,
      deriveAccount exEnv exState
          { account := 0, change := 0, index := some 1 } .PrivateKey "w" =
        .ok (toDerivedAccount newRec,
          { exState with records := exState.records ++ [newRec] }) :=
  C2_amended_derive_appends_unconditionally exEnv exState
    { account := 0, change := 0, index := some 1 } .PrivateKey "w" "hunter2"
    "seed0" exParent (by decide) (by decide) (by decide) (by decide)
    (by decide)

/-! ## Claim C8 -/

/-- Surviving the removal loop implies having been in the store before. -/
theorem mem_of_mem_removeAccountIds {r : KeyStoreRecord} :
    ∀ (ids : List String) (records : List KeyStoreRecord),
      r ∈ removeAccountIds records ids → r ∈ records := by
  intro ids
  induction ids with
  | nil =>
      intro records h
      simpa [removeAccountIds] using h
  | cons i rest ih =>
      intro records h
      simp only [removeAccountIds] at h
      have h2 : r ∈ (if i = "" then records else removeRecord records i) :=
        ih _ h
      by_cases hi : i = ""
      · simpa [hi] using h2
      · rw [if_neg hi] at h2
        exact List.mem_of_mem_filter h2

/-- No record with a non-empty id from the removed list survives the
removal loop. -/
theorem not_mem_removeAccountIds {r : KeyStoreRecord} :
    ∀ (ids : List String) (records : List KeyStoreRecord),
      r.id ∈ ids → r.id ≠ "" → r ∉ removeAccountIds records ids := by
  intro ids
  induction ids with
  | nil =>
      intro records h
      cases h
  | cons i rest ih =>
      intro records hmem hne hcontra
      simp only [removeAccountIds] at hcontra
      rcases List.mem_cons.mp hmem with heq | hmemrest
      · have hni : ¬ (i = "") := by
          rw [← heq]
          exact hne
        rw [if_neg hni] at hcontra
        have hr : r ∈ removeRecord records i :=
          mem_of_mem_removeAccountIds rest _ hcontra
        have h2 := (List.mem_filter.mp hr).2
        simp [heq] at h2
      · exact ih _ hmemrest hne hcontra

/-- Claim C8 amended: after a password-verified `deleteAccount`, every
record that still has `parentId = accountId` carries the empty string as
id (the falsy-id guard skips those); every surviving record's id differs
from `accountId` (when `accountId` is itself non-empty); and the cached
in-memory password is forgotten when the deleted account was active. -/
theorem C8_amended_deleteAccount_cascade (s : KeyRingState)
    (accountId password : String)
    (h : checkPassword s password (some accountId) = true) :
    (deleteAccount s accountId password).1 = .ok () ∧
    (∀ r ∈ (deleteAccount s accountId password).2.records,
        r.parentId = some accountId → r.id = "") ∧
    (accountId ≠ "" → ∀ r ∈ (deleteAccount s accountId password).2.records,
        r.id ≠ accountId) ∧
    (s.activeAccountId = some accountId →
        (deleteAccount s accountId password).2.password = none) := by
  have hrecords : (deleteAccount s accountId password).2.records =
      removeAccountIds s.records
        (accountId :: (getRecordsByParentId s.records (some accountId)).map
          (fun q => q.id)) := by
    simp [deleteAccount, h]
  have hres : (deleteAccount s accountId password).1 = .ok () := by
    simp [deleteAccount, h]
  refine ⟨hres, ?_, ?_, ?_⟩
  · intro r hr hpid
    rw [hrecords] at hr
    by_contra hne
    refine not_mem_removeAccountIds _ s.records ?_ hne hr
    refine List.mem_cons_of_mem _ (List.mem_map_of_mem _ ?_)
    refine List.mem_filter.mpr ⟨mem_of_mem_removeAccountIds _ _ hr, ?_⟩
    simp [hpid]
  · intro hane r hr heq
    rw [hrecords] at hr
    refine not_mem_removeAccountIds _ s.records ?_ ?_ hr
    · rw [heq]
      exact List.mem_cons_self _ _
    · rw [heq]
      exact hane
  · intro ha
    simp [deleteAccount, h, ha]

/-- Witness for the amended C8: deleting the active parent of `exState`. -/
theorem C8_amended_witness :
    checkPassword exState "hunter2" (some "p") = true ∧
    ((deleteAccount exState "p" "hunter2").1 = .ok () ∧
      (∀ r ∈ (deleteAccount exState "p" "hunter2").2.records,
          r.parentId = some "p" → r.id = "") ∧
      ("p" ≠ "" → ∀ r ∈ (deleteAccount exState "p" "hunter2").2.records,
          r.id ≠ "p") ∧
      (exState.activeAccountId = some "p" →
          (deleteAccount exState "p" "hunter2").2.password = none)) :=
  ⟨by decide, C8_amended_deleteAccount_cascade exState "p" "hunter2" (by decide)⟩

/-- Claim C8 counterexample: a child carrying the empty string as id is
skipped by the falsy-id guard of the removal loop, so a record with
`parentId = accountId` survives a successful `deleteAccount`. -/
theorem C8_empty_id_child_survives_delete :
    (deleteAccount exStateEmptyChild "p" "hunter2").1 = .ok () ∧
    (deleteAccount exStateEmptyChild "p" "hunter2").2.records =
      [exChildEmptyId] ∧
    exChildEmptyId.parentId = some "p" := by
  decide

end Keyring
